import Mathlib

/-!
Verification of the single-file FastAPI "hello world" application
(`src/week-1/main.py`).

The Python module is embedded shallowly:

* Python dict / JSON values become the inductive type `Json`.
* The handler `home` is embedded as a state-passing function returning
  `Except String Json` (Python functions may in general mutate module
  state and raise exceptions; the body of `home` is a single `return`
  of a dict literal, so the embedding returns the unchanged state and
  `Except.ok` of that literal).
* The module-level code `app = FastAPI(title="My FastAPI APP")` followed
  by the decorator `@app.get("/")` is embedded as the construction of an
  `App` value with a route table.
* The framework's router, JSON serializer and a JSON parser are external
  collaborators (the spec scopes them out of the repository); they are
  modelled from the spec's description of their behaviour.
-/

/-- JSON values, restricted to the shapes this application produces:
strings and objects (ordered key/value lists, as Python dicts preserve
insertion order). -/
inductive Json where
  | str : String → Json
  | obj : List (String × Json) → Json

/-- HTTP methods relevant to the spec's scenarios. -/
inductive Method where
  | GET
  | POST
  | PUT
  | DELETE
deriving BEq, DecidableEq, Repr

/-- The module-level mutable state of `main.py`: the data held by the
singleton `app` object (its title and the (method, path) keys of its
route table).  Handlers receive and return this state so that claims
about state (non-)mutation can be stated. -/
structure ModuleState where
  appTitle : String
  appRouteKeys : List (Method × String)
deriving DecidableEq, Repr

/-- The dict literal `{"message": "Hello world"}` returned by `home`
(line 11 of `main.py`). -/
def homeDict : Json := Json.obj [("message", Json.str "Hello world")]

/-- Embedding of the handler `home` (lines 10-11 of `main.py`):
its body is the single statement `return {"message": "Hello world"}`,
so it leaves the module state unchanged and returns `Except.ok` of the
dict literal. -/
def home (st : ModuleState) : ModuleState × Except String Json :=
  (st, Except.ok homeDict)

/-- A registered route: a (method, path) pair bound to a handler. -/
structure Route where
  method : Method
  path : String
  handler : ModuleState → ModuleState × Except String Json

/-- The application object: a title and a route table. -/
structure App where
  title : String
  routes : List Route

/-- Embedding of the constructor call `FastAPI(title=...)` (line 6):
a fresh application with an empty route table. -/
def FastAPI (title : String) : App :=
  { title := title, routes := [] }

/-- Embedding of the decorator `@app.get(path)`: registers `(GET, path)`
bound to the decorated handler, appending to the route table. -/
def App.get (a : App) (path : String)
    (h : ModuleState → ModuleState × Except String Json) : App :=
  { a with routes := a.routes ++ [⟨Method.GET, path, h⟩] }

/-- Embedding of the module-level execution of `main.py`:
`app = FastAPI(title="My FastAPI APP")` (line 6) followed by the single
active decorator `@app.get("/")` on `home` (line 9).  Lines 14-16
(`read_item`) are commented out in the source and execute nothing, so
they contribute no registration here. -/
def app : App :=
  App.get (FastAPI "My FastAPI APP") "/" home

/-- The module state right after import: the `app` singleton exists with
its title and one registered route key. -/
def initState : ModuleState :=
  { appTitle := app.title
    appRouteKeys := app.routes.map (fun rt => (rt.method, rt.path)) }

/-- An inbound HTTP request: method, path, headers and body.  The
handler consumes none of it; the router reads only method and path. -/
structure Request where
  method : Method
  path : String
  headers : List (String × String)
  body : String

/-- An outbound HTTP response: status code, content type and body. -/
structure Response where
  status : Nat
  contentType : String
  body : String
deriving DecidableEq, Repr

/-- Escape of a single character inside a serialized JSON string. -/
def escapeChar (c : Char) : String :=
  if c = '"' then "\\\""
  else if c = '\\' then "\\\\"
  else if c = '\n' then "\\n"
  else if c = '\t' then "\\t"
  else if c = '\r' then "\\r"
  else String.singleton c

/-- Serialization of a JSON string literal, with surrounding quotes. -/
def serializeStr (s : String) : String :=
  "\"" ++ String.join (s.data.map escapeChar) ++ "\""

mutual

/-- Modelled from the spec: the framework serializes the handler's
return value to compact JSON ("the handler's return value is serialized
to JSON by the framework"). -/
def serialize : Json → String
  | Json.str s => serializeStr s
  | Json.obj kvs => "\x7b" ++ serializeMembers kvs ++ "\x7d"

/-- Serialization of the members of a JSON object, comma-separated. -/
def serializeMembers : List (String × Json) → String
  | [] => ""
  | [kv] => serializeStr kv.1 ++ ":" ++ serialize kv.2
  | kv :: rest => serializeStr kv.1 ++ ":" ++ serialize kv.2 ++ "," ++ serializeMembers rest

end

/-- Whitespace skipping for the JSON parser. -/
def skipWs : List Char → List Char
  | c :: cs =>
    if c = ' ' ∨ c = '\n' ∨ c = '\t' ∨ c = '\r' then skipWs cs else c :: cs
  | [] => []

/-- Parse the interior of a JSON string (the opening quote already
consumed), returning the decoded characters and the remaining input. -/
def parseStringChars : List Char → Option (List Char × List Char)
  | [] => none
  | '"' :: rest => some ([], rest)
  | '\\' :: c :: rest =>
    (parseStringChars rest).bind (fun p =>
      if c = '"' then some ('"' :: p.1, p.2)
      else if c = '\\' then some ('\\' :: p.1, p.2)
      else if c = '/' then some ('/' :: p.1, p.2)
      else if c = 'n' then some ('\n' :: p.1, p.2)
      else if c = 't' then some ('\t' :: p.1, p.2)
      else if c = 'r' then some ('\r' :: p.1, p.2)
      else none)
  | c :: rest =>
    if c = '\\' then none
    else (parseStringChars rest).map (fun p => (c :: p.1, p.2))

mutual

/-- Modelled from the spec: a JSON parser ("the response body is valid
JSON and round-trips through a JSON parser"), covering the JSON subset
this application emits (strings and objects).  Fuel-indexed recursive
descent; the fuel bounds nesting depth. -/
def parseValue : Nat → List Char → Option (Json × List Char)
  | 0, _ => none
  | Nat.succ fuel, cs =>
    match skipWs cs with
    | '"' :: rest =>
      (parseStringChars rest).map (fun p => (Json.str (String.mk p.1), p.2))
    | '{' :: rest =>
      match skipWs rest with
      | '}' :: rest2 => some (Json.obj [], rest2)
      | rest2 =>
        (parseMembers fuel rest2).bind (fun p =>
          match skipWs p.2 with
          | '}' :: rest3 => some (Json.obj p.1, rest3)
          | _ => none)
    | _ => none

/-- Parse one or more `"key": value` members of a JSON object. -/
def parseMembers : Nat → List Char → Option (List (String × Json) × List Char)
  | 0, _ => none
  | Nat.succ fuel, cs =>
    match skipWs cs with
    | '"' :: rest =>
      (parseStringChars rest).bind (fun kp =>
        match skipWs kp.2 with
        | ':' :: rest2 =>
          (parseValue fuel rest2).bind (fun vp =>
            match skipWs vp.2 with
            | ',' :: rest3 =>
              (parseMembers fuel rest3).map
                (fun mp => ((String.mk kp.1, vp.1) :: mp.1, mp.2))
            | other => some ([(String.mk kp.1, vp.1)], other))
        | _ => none)
    | _ => none

end

/-- Parse a complete JSON document: one value followed only by
whitespace. -/
def parseJson (s : String) : Option Json :=
  match parseValue (s.length + 1) s.data with
  | some (v, rest) => if skipWs rest = [] then some v else none
  | none => none

/-- Modelled from the spec: the framework router.  A request is
dispatched to the handler registered for its (method, path) pair; the
handler's return value is serialized to JSON and sent with status 200
and content-type `application/json`.  A path registered under a
different method yields a method-not-allowed response (status 405); an
unregistered path falls through to the not-found response (status 404),
per the spec's default framework behaviour. -/
def dispatch (a : App) (st : ModuleState) (req : Request) : ModuleState × Response :=
  match a.routes.find? (fun rt => rt.method == req.method && rt.path == req.path) with
  | some rt =>
    match rt.handler st with
    | (st', Except.ok v) =>
      (st', { status := 200, contentType := "application/json", body := serialize v })
    | (st', Except.error _) =>
      (st', { status := 500, contentType := "application/json"
              body := serialize (Json.obj [("detail", Json.str "Internal Server Error")]) })
  | none =>
    if a.routes.any (fun rt => rt.path == req.path) then
      (st, { status := 405, contentType := "application/json"
             body := serialize (Json.obj [("detail", Json.str "Method Not Allowed")]) })
    else
      (st, { status := 404, contentType := "application/json"
             body := serialize (Json.obj [("detail", Json.str "Not Found")]) })

/-- Any `/items/...` path differs from the registered root path. -/
theorem root_ne_items (s : String) : ("/" : String) ≠ "/items/" ++ s := by
  intro h
  have hlen := congrArg String.length h
  rw [String.length_append] at hlen
  have h1 : ("/" : String).length = 1 := rfl
  have h7 : ("/items/" : String).length = 7 := rfl
  rw [h1, h7] at hlen
  omega

/-- C1: for every HTTP GET request to path `/`, the application produces
a response with status 200, content-type `application/json`, and body
equal to the framework serialization of the handler's dict
`{"message": "Hello world"}`, which parses back to that mapping. -/
theorem claim_C1_get_root_ok (st : ModuleState) (r : Request)
    (hm : r.method = Method.GET) (hp : r.path = "/") :
    (dispatch app st r).2 =
      { status := 200, contentType := "application/json", body := serialize homeDict } ∧
    parseJson (dispatch app st r).2.body = some homeDict := by
  cases r
  subst hm hp
  exact ⟨rfl, rfl⟩

/-- Witness for C1: the concrete request `GET /` with empty headers and
body satisfies the hypotheses, and the conclusion holds there. -/
theorem claim_C1_get_root_ok_witness :
    (dispatch app initState ⟨Method.GET, "/", [], ""⟩).2 =
      { status := 200, contentType := "application/json", body := serialize homeDict } ∧
    parseJson (dispatch app initState ⟨Method.GET, "/", [], ""⟩).2.body = some homeDict :=
  claim_C1_get_root_ok initState ⟨Method.GET, "/", [], ""⟩ rfl rfl

/-- C2: the handler `home` is total: on every module state it terminates
with `Except.ok` of the fixed mapping and never produces an error. -/
theorem claim_C2_home_total (st : ModuleState) :
    (home st).2 = Except.ok homeDict ∧ ∀ e : String, (home st).2 ≠ Except.error e :=
  ⟨rfl, fun _ h => Except.noConfusion h⟩

/-- Witness for C2: evaluated at the post-import module state. -/
theorem claim_C2_home_total_witness :
    (home initState).2 = Except.ok homeDict ∧
    ∀ e : String, (home initState).2 ≠ Except.error e :=
  claim_C2_home_total initState

/-- C3: any two invocations of the handler via `GET /` yield equal
responses, whatever the module states and whatever the ignored request
data (headers, body); the response is always status 200 with the fixed
serialized mapping. -/
theorem claim_C3_deterministic (st₁ st₂ : ModuleState) (r₁ r₂ : Request)
    (h₁m : r₁.method = Method.GET) (h₁p : r₁.path = "/")
    (h₂m : r₂.method = Method.GET) (h₂p : r₂.path = "/") :
    (dispatch app st₁ r₁).2 = (dispatch app st₂ r₂).2 ∧
    (dispatch app st₁ r₁).2.status = 200 ∧
    (dispatch app st₁ r₁).2.body = serialize homeDict := by
  cases r₁
  cases r₂
  subst h₁m h₁p h₂m h₂p
  exact ⟨rfl, rfl, rfl⟩

/-- Witness for C3: two concrete `GET /` requests with different
headers, bodies and module states give the same response. -/
theorem claim_C3_deterministic_witness :
    (dispatch app initState ⟨Method.GET, "/", [("x", "y")], "payload"⟩).2 =
      (dispatch app ⟨"other", []⟩ ⟨Method.GET, "/", [], ""⟩).2 ∧
    (dispatch app initState ⟨Method.GET, "/", [("x", "y")], "payload"⟩).2.status = 200 ∧
    (dispatch app initState ⟨Method.GET, "/", [("x", "y")], "payload"⟩).2.body =
      serialize homeDict :=
  claim_C3_deterministic initState ⟨"other", []⟩
    ⟨Method.GET, "/", [("x", "y")], "payload"⟩ ⟨Method.GET, "/", [], ""⟩ rfl rfl rfl rfl

/-- C4: the serialized response body of `GET /` is valid JSON and parses
back to exactly the mapping with the single key `message` and string
value `Hello world` (round-trip `parse (serialize (home ())) = home ()`). -/
theorem claim_C4_json_roundtrip :
    parseJson (serialize homeDict) = some homeDict ∧
    homeDict = Json.obj [("message", Json.str "Hello world")] ∧
    parseJson (dispatch app initState ⟨Method.GET, "/", [], ""⟩).2.body = some homeDict :=
  ⟨rfl, rfl, rfl⟩

/-- C5: the application's route table is exactly one route, `(GET, "/")`
bound to `home`; the commented-out `read_item` route contributes no
entry. -/
theorem claim_C5_route_table :
    app.routes = [{ method := Method.GET, path := "/", handler := home }] ∧
    app.routes.length = 1 :=
  ⟨rfl, rfl⟩

/-- C6: every request `GET /items/...` (in particular `GET /items/1`)
receives a not-found response with status 404, since the items route is
not registered. -/
theorem claim_C6_items_not_found (st : ModuleState) (s : String)
    (hdrs : List (String × String)) (b : String) :
    (dispatch app st ⟨Method.GET, "/items/" ++ s, hdrs, b⟩).2.status = 404 := by
  have hne := root_ne_items s
  have hbeq : (("/" : String) == "/items/" ++ s) = false :=
    beq_eq_false_iff_ne.mpr hne
  simp [dispatch, app, App.get, FastAPI, List.find?, List.any, hbeq, hne]

/-- Witness for C6: the concrete request `GET /items/1`. -/
theorem claim_C6_items_not_found_witness :
    (dispatch app initState ⟨Method.GET, "/items/" ++ "1", [], ""⟩).2.status = 404 :=
  claim_C6_items_not_found initState "1" [] ""

/-- C7: every request `POST /` receives a method-not-allowed response
with status 405, since only GET is registered for path `/`. -/
theorem claim_C7_post_root_405 (st : ModuleState)
    (hdrs : List (String × String)) (b : String) :
    (dispatch app st ⟨Method.POST, "/", hdrs, b⟩).2.status = 405 := rfl

/-- Witness for C7: the concrete request `POST /` at the post-import
state. -/
theorem claim_C7_post_root_405_witness :
    (dispatch app initState ⟨Method.POST, "/", [], ""⟩).2.status = 405 :=
  claim_C7_post_root_405 initState [] ""

/-- C8: every invocation of `home` leaves the module state (the data of
the singleton `app`) unchanged; its only effect is its return value. -/
theorem claim_C8_home_pure (st : ModuleState) :
    (home st).1 = st ∧ home st = (st, Except.ok homeDict) :=
  ⟨rfl, rfl⟩

/-- Witness for C8: evaluated at the post-import module state. -/
theorem claim_C8_home_pure_witness :
    (home initState).1 = initState ∧ home initState = (initState, Except.ok homeDict) :=
  claim_C8_home_pure initState

/-- C9: the application instance is constructed with the title
`My FastAPI APP`, fixed at import time. -/
theorem claim_C9_app_title : app.title = "My FastAPI APP" :=
  rfl
